import Mathlib

/-!
# TriangleShape (Engine/IGeometry/ICollision/ICollisionShapes/ITriangleShape.h)

A shallow embedding of the inline member functions of `IEngine::TriangleShape`
and properties of them.

Conventions of the embedding:

* `scalar` (a floating-point typedef of the engine) is modelled by the exact
  rationals, so the results below are statements about exact arithmetic.
* `u32` indices are natural numbers; no arithmetic is performed on them.
* A member function guarded by `assert` returns an `Option`; `none` is the
  failed assertion.
* Out-parameters are returned as results, a `void` setter returns the new
  object state.
-/

namespace IEngine

/-- The engine scalar type, modelled by exact rationals. -/
abbrev scalar := ℚ

/-- Modelled from the spec: the class `Vector3` is declared in a header that is
not part of the shown sources; it is a triple of scalar components `x`, `y`,
`z` with the usual component-wise vector operations. -/
structure Vector3 where
  x : scalar
  y : scalar
  z : scalar
deriving DecidableEq

namespace Vector3

/-- Modelled from the spec: `Vector3::Dot`, the dot product of two vectors. -/
def Dot (a b : Vector3) : scalar :=
  a.x * b.x + a.y * b.y + a.z * b.z

/-- Modelled from the spec: `Vector3::operator+`, component-wise sum. -/
instance : Add Vector3 :=
  ⟨fun a b => ⟨a.x + b.x, a.y + b.y, a.z + b.z⟩⟩

/-- Modelled from the spec: `Vector3::operator-` (binary) and `operator-=`,
component-wise difference. -/
instance : Sub Vector3 :=
  ⟨fun a b => ⟨a.x - b.x, a.y - b.y, a.z - b.z⟩⟩

/-- Modelled from the spec: `Vector3::operator-` (unary), component-wise
negation. -/
instance : Neg Vector3 :=
  ⟨fun a => ⟨-a.x, -a.y, -a.z⟩⟩

/-- Modelled from the spec: `Vector3::operator/` by a scalar, component-wise
division. -/
instance : HDiv Vector3 scalar Vector3 :=
  ⟨fun a k => ⟨a.x / k, a.y / k, a.z / k⟩⟩

/-- The zero vector. -/
instance : Zero Vector3 :=
  ⟨⟨0, 0, 0⟩⟩

/-- Modelled from the spec: `Vector3::SetAllValues` overwrites the three
components of the receiver; the previous contents `_self` are discarded. -/
def SetAllValues (_self : Vector3) (newx newy newz : scalar) : Vector3 :=
  ⟨newx, newy, newz⟩

/-- Modelled from the spec: `Vector3::GetMaxAxis` is declared in a header that
is not part of the shown sources. The spec describes the selection it performs
for the support point: the index of the component "with maximal value; ties
broken by first-encountered index (deterministic, stable ordering 0→1→2)".
A later index replaces an earlier one only when its component is strictly
larger. -/
def GetMaxAxis (v : Vector3) : Fin 3 :=
  if v.x < v.y then (if v.y < v.z then 2 else 1) else (if v.x < v.z then 2 else 0)

/-- Modelled from the spec: `Vector3::GetMinValue` is declared in a header that
is not part of the shown sources; the spec describes the bounds as the
"axis-aligned min/max over the 3" values, so it is the least of the three
components, found by one pass over them. -/
def GetMinValue (v : Vector3) : scalar :=
  let m := v.x
  let m := if v.y < m then v.y else m
  if v.z < m then v.z else m

/-- Modelled from the spec: `Vector3::GetMaxValue` is declared in a header that
is not part of the shown sources; the spec describes the bounds as the
"axis-aligned min/max over the 3" values, so it is the greatest of the three
components, found by one pass over them. -/
def GetMaxValue (v : Vector3) : scalar :=
  let m := v.x
  let m := if m < v.y then v.y else m
  if m < v.z then v.z else m

end Vector3

/-- Modelled from the spec: the class `Matrix3` is declared in a header that is
not part of the shown sources; it is a 3x3 array of scalars, stored here as
three rows. -/
structure Matrix3 where
  row0 : Vector3
  row1 : Vector3
  row2 : Vector3
deriving DecidableEq

/-- Modelled from the spec: the constant `Matrix3::ZERO`, "the zero tensor":
every entry is zero. -/
def Matrix3.ZERO : Matrix3 :=
  ⟨⟨0, 0, 0⟩, ⟨0, 0, 0⟩, ⟨0, 0, 0⟩⟩

/-- Raycast test side for the triangle. -/
inductive TriangleRaycastSide where
  | FRONT
  | BACK
  | FRONT_AND_BACK
deriving DecidableEq

namespace HalfEdgeStructure

/-- Modelled from the spec: `HalfEdgeStructure::Vertex` is declared in a header
that is not part of the shown sources: "identity index + index of one outgoing
half-edge". -/
structure Vertex where
  vertexPointIndex : Nat
  edgeIndex : Nat
deriving DecidableEq

/-- Modelled from the spec: `HalfEdgeStructure::Edge` is declared in a header
that is not part of the shown sources: "index of its twin (opposite-direction)
edge, index of the face it borders, index of the next edge around that face,
index of the vertex it originates from". -/
structure Edge where
  vertexIndex : Nat
  twinEdgeIndex : Nat
  faceIndex : Nat
  nextEdgeIndex : Nat
deriving DecidableEq

/-- Modelled from the spec: `HalfEdgeStructure::Face` is declared in a header
that is not part of the shown sources: "ordered sequence of vertex indices
bounding the face". -/
structure Face where
  faceVertices : List Nat
deriving DecidableEq

end HalfEdgeStructure

/-- The attributes of `TriangleShape`. `mMargin` is inherited from the
collision-shape base class; the arrays `mPoints[3]`, `mVerticesNormals[3]`,
`mFaces[2]` and `mEdges[6]` are functions on the index range. -/
structure TriangleShape where
  mMargin : scalar
  mPoints : Fin 3 → Vector3
  mNormal : Vector3
  mVerticesNormals : Fin 3 → Vector3
  mRaycastTestType : TriangleRaycastSide
  mFaces : Fin 2 → HalfEdgeStructure.Face
  mEdges : Fin 6 → HalfEdgeStructure.Edge

namespace TriangleShape

/-- The vector `dotProducts` built in `GetLocalSupportPointWithMargin`. -/
def dotProducts (s : TriangleShape) (direction : Vector3) : Vector3 :=
  ⟨direction.Dot (s.mPoints 0), direction.Dot (s.mPoints 1), direction.Dot (s.mPoints 2)⟩

/-- Member function `TriangleShape::GetLocalSupportPointWithMargin`. -/
def GetLocalSupportPointWithMargin (s : TriangleShape) (direction : Vector3) : Vector3 :=
  s.mPoints (s.dotProducts direction).GetMaxAxis

/-- Member function `TriangleShape::GetLocalBounds`; the out-parameters `min` and `max` are
passed in with their previous contents and returned as a pair. -/
def GetLocalBounds (s : TriangleShape) (min max : Vector3) : Vector3 × Vector3 :=
  let xAxis : Vector3 := ⟨(s.mPoints 0).x, (s.mPoints 1).x, (s.mPoints 2).x⟩
  let yAxis : Vector3 := ⟨(s.mPoints 0).y, (s.mPoints 1).y, (s.mPoints 2).y⟩
  let zAxis : Vector3 := ⟨(s.mPoints 0).z, (s.mPoints 1).z, (s.mPoints 2).z⟩
  let min := min.SetAllValues xAxis.GetMinValue yAxis.GetMinValue zAxis.GetMinValue
  let max := max.SetAllValues xAxis.GetMaxValue yAxis.GetMaxValue zAxis.GetMaxValue
  let min := min - ⟨s.mMargin, s.mMargin, s.mMargin⟩
  let max := max + ⟨s.mMargin, s.mMargin, s.mMargin⟩
  (min, max)

/-- Member function `TriangleShape::ComputeLocalInertiaTensor2`. -/
def ComputeLocalInertiaTensor2 (_s : TriangleShape) (_mass : scalar) (_transform : Matrix3) :
    Matrix3 :=
  Matrix3.ZERO

/-- Member function `TriangleShape::TestPointInside`; the proxy-shape pointer is an argument of
an arbitrary type. -/
def TestPointInside {P : Type} (_s : TriangleShape) (_localPoint : Vector3) (_proxyShape : P) :
    Bool :=
  false

/-- Member function `TriangleShape::getNbFaces`. -/
def getNbFaces (_s : TriangleShape) : Nat := 2

/-- Member function `TriangleShape::getFace`. -/
def getFace (s : TriangleShape) (faceIndex : Nat) : Option HalfEdgeStructure.Face :=
  if h : faceIndex < 2 then some (s.mFaces ⟨faceIndex, h⟩) else none

/-- Member function `TriangleShape::getNbVertices`. -/
def getNbVertices (_s : TriangleShape) : Nat := 3

/-- Member function `TriangleShape::getVertex`. The constructor `Vertex(vertexIndex)` sets the
identity index and leaves `edgeIndex` without a determined value; that
indeterminate content is the argument `uninit`. The `switch` has no default
case, so an index other than 0, 1, 2 would leave the record as constructed. -/
def getVertex (_s : TriangleShape) (vertexIndex : Nat) (uninit : Nat) :
    Option HalfEdgeStructure.Vertex :=
  if vertexIndex < 3 then
    let vertex : HalfEdgeStructure.Vertex := ⟨vertexIndex, uninit⟩
    let vertex : HalfEdgeStructure.Vertex :=
      match vertexIndex with
      | 0 => { vertex with edgeIndex := 0 }
      | 1 => { vertex with edgeIndex := 2 }
      | 2 => { vertex with edgeIndex := 4 }
      | _ => vertex
    some vertex
  else none

/-- Member function `TriangleShape::getNbHalfEdges`. -/
def getNbHalfEdges (_s : TriangleShape) : Nat := 6

/-- Member function `TriangleShape::getHalfEdge`. -/
def getHalfEdge (s : TriangleShape) (edgeIndex : Nat) : Option HalfEdgeStructure.Edge :=
  if h : edgeIndex < s.getNbHalfEdges then some (s.mEdges ⟨edgeIndex, h⟩) else none

/-- Member function `TriangleShape::getVertexPosition`. -/
def getVertexPosition (s : TriangleShape) (vertexIndex : Nat) : Option Vector3 :=
  if h : vertexIndex < 3 then some (s.mPoints ⟨vertexIndex, h⟩) else none

/-- Member function `TriangleShape::getFaceNormal`. -/
def getFaceNormal (s : TriangleShape) (faceIndex : Nat) : Option Vector3 :=
  if faceIndex < 2 then some (if faceIndex = 0 then s.mNormal else -s.mNormal) else none

/-- Member function `TriangleShape::getCentroid`. -/
def getCentroid (s : TriangleShape) : Vector3 :=
  (s.mPoints 0 + s.mPoints 1 + s.mPoints 2) / (3 : scalar)

/-- Member function `TriangleShape::getRaycastTestType`. -/
def getRaycastTestType (s : TriangleShape) : TriangleRaycastSide :=
  s.mRaycastTestType

/-- Member function `TriangleShape::setRaycastTestType`; returns the object after the
assignment. -/
def setRaycastTestType (s : TriangleShape) (testType : TriangleRaycastSide) : TriangleShape :=
  { s with mRaycastTestType := testType }

end TriangleShape

/-- A concrete triangle used to evaluate the definitions: the unit right
triangle (0,0,0), (1,0,0), (0,1,0) with normal (0,0,1). -/
def unitRightTriangle : TriangleShape where
  mMargin := 0
  mPoints := fun i => match i with
    | 0 => ⟨0, 0, 0⟩
    | 1 => ⟨1, 0, 0⟩
    | 2 => ⟨0, 1, 0⟩
  mNormal := ⟨0, 0, 1⟩
  mVerticesNormals := fun _ => ⟨0, 0, 1⟩
  mRaycastTestType := TriangleRaycastSide.FRONT_AND_BACK
  mFaces := fun i => match i with
    | 0 => ⟨[0, 1, 2]⟩
    | 1 => ⟨[0, 2, 1]⟩
  mEdges := fun _ => ⟨0, 0, 0, 0⟩

/-! ## Further vector operations -/

namespace Vector3

/-- Modelled from the spec: `operator*` of a scalar and a `Vector3`,
component-wise scaling (used for the point `origin + t*direction` of a ray). -/
instance : HMul scalar Vector3 Vector3 :=
  ⟨fun k a => ⟨k * a.x, k * a.y, k * a.z⟩⟩

/-- Modelled from the spec: `Vector3::Cross`, the cross product of two
vectors. -/
def Cross (a b : Vector3) : Vector3 :=
  ⟨a.y * b.z - a.z * b.y, a.z * b.x - a.x * b.z, a.x * b.y - a.y * b.x⟩

end Vector3

/-! ## Member functions that are only declared in the header -/

/-- Modelled from the spec: the ray descriptor `IRay` is declared outside the
shown sources: "a ray descriptor (origin, direction, max distance)". -/
structure IRay where
  origin : Vector3
  direction : Vector3
  maxDistance : scalar

/-- Modelled from the spec: the hit descriptor `IRaycastInfo` is declared
outside the shown sources: "a hit-info descriptor (distance, world point,
world normal)". -/
structure IRaycastInfo where
  distance : scalar
  worldPoint : Vector3
  worldNormal : Vector3
deriving DecidableEq

/-- Modelled from the spec: the class `IProxyShape` is declared outside the
shown sources; the raycast uses it only to express the hit point and the hit
normal in world space, so it is the pair of maps from the local frame of the
shape to the world frame. -/
structure IProxyShape where
  localToWorldPoint : Vector3 → Vector3
  localToWorldNormal : Vector3 → Vector3

/-- Modelled from the spec: the barycentric coordinates of a point relative to
the three vertices, which the header uses but does not define, "via the
standard area-ratio formula": with `n` the cross product of the two edge
vectors at `a`, the weight of a vertex is the signed area of the triangle
spanned by the point and the two other vertices, measured along `n`, divided
by the area of the whole triangle measured the same way. -/
def computeBarycentricCoordinatesInTriangle (a b c p : Vector3) : scalar × scalar × scalar :=
  let n := (b - a).Cross (c - a)
  let area := n.Dot n
  (((b - p).Cross (c - p)).Dot n / area,
   ((c - p).Cross (a - p)).Dot n / area,
   ((a - p).Cross (b - p)).Dot n / area)

namespace TriangleShape

/-- Modelled from the spec: the constructor
`TriangleShape(vertices, verticesNormals, shapeId)` is declared in the header
and defined outside the shown sources. The spec: it "takes 3 positions, 3
vertex normals, a shape id; computes the face normal by cross product of two
edge vectors; builds the fixed 2-face/6-edge topology; raycast mode defaults
to testing both sides". The margin comes from the base class and is the
argument `margin`; the shape id is an opaque key and is not stored here.
The topology is the half-edge structure of the two-sided triangle: "vertex v
maps to half-edge index 2v" and the six half-edges are "3 forward + 3 twin",
so edge `2v` leaves vertex `v` along the front face 0 towards vertex `v+1`
(next edge `2(v+1)`, indices of vertices modulo 3), and edge `2v+1` is its
twin, leaving vertex `v+1` along the back face 1 towards vertex `v` (next edge
the twin of the forward edge that arrives at `v`). Face 0 lists the vertices in
the winding 0, 1, 2 and face 1 in the opposite winding. -/
def construct (margin : scalar) (vertices verticesNormals : Fin 3 → Vector3) (_shapeId : Nat) :
    TriangleShape where
  mMargin := margin
  mPoints := vertices
  mNormal := (vertices 1 - vertices 0).Cross (vertices 2 - vertices 0)
  mVerticesNormals := verticesNormals
  mRaycastTestType := TriangleRaycastSide.FRONT_AND_BACK
  mFaces := fun i => match i with
    | 0 => ⟨[0, 1, 2]⟩
    | 1 => ⟨[0, 2, 1]⟩
  mEdges := fun e => match e with
    | 0 => { vertexIndex := 0, twinEdgeIndex := 1, faceIndex := 0, nextEdgeIndex := 2 }
    | 1 => { vertexIndex := 1, twinEdgeIndex := 0, faceIndex := 1, nextEdgeIndex := 5 }
    | 2 => { vertexIndex := 1, twinEdgeIndex := 3, faceIndex := 0, nextEdgeIndex := 4 }
    | 3 => { vertexIndex := 2, twinEdgeIndex := 2, faceIndex := 1, nextEdgeIndex := 1 }
    | 4 => { vertexIndex := 2, twinEdgeIndex := 5, faceIndex := 0, nextEdgeIndex := 0 }
    | 5 => { vertexIndex := 0, twinEdgeIndex := 4, faceIndex := 1, nextEdgeIndex := 3 }

/-- Modelled from the spec: `TriangleShape::Raycast` is declared in the header
and defined outside the shown sources. The result `none` is the return value
`false` (no hit, the hit descriptor is not written), `some info` is `true`
with the written descriptor. Following the spec step by step:
"Compute ray–plane intersection using the triangle's plane (point + normal)"
(a ray parallel to the plane has no intersection); "Reject if intersection
parameter falls outside the ray's valid range, or if FRONT mode is selected
and the ray approaches from the back side of the plane (dot of ray direction
with normal ≥ 0), or symmetric for BACK"; "If the plane-intersection point
lies outside the triangle (barycentric coordinates test — all three
coordinates must be in [0,1] and sum to 1, with a small numerical tolerance
for edge-adjacent points), report no hit"; "On hit, populate hit distance,
world point, and surface normal (oriented against the incoming ray direction
for FRONT_AND_BACK mode, matching the tested face's raw normal otherwise)".
The tolerance is the argument `tolerance`; the distance is the intersection
parameter along the ray direction. -/
def Raycast (s : TriangleShape) (tolerance : scalar) (ray : IRay) (proxyShape : IProxyShape) :
    Option IRaycastInfo :=
  let denom := ray.direction.Dot s.mNormal
  if denom = 0 then none
  else
    let t := (s.mPoints 0 - ray.origin).Dot s.mNormal / denom
    if t < 0 ∨ ray.maxDistance < t then none
    else if s.mRaycastTestType = TriangleRaycastSide.FRONT ∧ 0 ≤ denom then none
    else if s.mRaycastTestType = TriangleRaycastSide.BACK ∧ denom ≤ 0 then none
    else
      let hitPoint := ray.origin + t * ray.direction
      let w := computeBarycentricCoordinatesInTriangle (s.mPoints 0) (s.mPoints 1) (s.mPoints 2)
        hitPoint
      let inRange := fun (x : scalar) => decide (-tolerance ≤ x ∧ x ≤ 1 + tolerance)
      let total := w.1 + w.2.1 + w.2.2
      if inRange w.1 ∧ inRange w.2.1 ∧ inRange w.2.2 ∧
          1 - tolerance ≤ total ∧ total ≤ 1 + tolerance then
        let hitNormal :=
          match s.mRaycastTestType with
          | TriangleRaycastSide.FRONT => s.mNormal
          | TriangleRaycastSide.BACK => -s.mNormal
          | TriangleRaycastSide.FRONT_AND_BACK => if 0 < denom then -s.mNormal else s.mNormal
        some ⟨t, proxyShape.localToWorldPoint hitPoint, proxyShape.localToWorldNormal hitNormal⟩
      else none

end TriangleShape

/-- The identity maps between the local frame and the world frame. -/
def identityProxyShape : IProxyShape where
  localToWorldPoint := fun p => p
  localToWorldNormal := fun n => n

/-- The vertices of the unit right triangle. -/
def unitRightVertices : Fin 3 → Vector3 :=
  fun i => match i with
    | 0 => ⟨0, 0, 0⟩
    | 1 => ⟨1, 0, 0⟩
    | 2 => ⟨0, 1, 0⟩

/-- The unit right triangle as the constructor builds it from vertex normals
that all equal the face normal (0,0,1). -/
def flatNormalsTriangle : TriangleShape :=
  TriangleShape.construct 0 unitRightVertices (fun _ => ⟨0, 0, 1⟩) 7

/-! ## Auxiliary facts about the vector helpers -/

namespace Vector3

/-- Unfolding of the component-wise sum. -/
theorem add_def (a b : Vector3) : a + b = ⟨a.x + b.x, a.y + b.y, a.z + b.z⟩ := rfl

/-- Unfolding of the component-wise difference. -/
theorem sub_def (a b : Vector3) : a - b = ⟨a.x - b.x, a.y - b.y, a.z - b.z⟩ := rfl

/-- Unfolding of the component-wise negation. -/
theorem neg_def (a : Vector3) : -a = ⟨-a.x, -a.y, -a.z⟩ := rfl

/-- Unfolding of the scaling by a scalar. -/
theorem smul_def (k : scalar) (a : Vector3) : k * a = ⟨k * a.x, k * a.y, k * a.z⟩ := rfl

/-- The pass of `GetMinValue` computes the minimum of the three components. -/
theorem GetMinValue_eq_min (v : Vector3) : v.GetMinValue = min (min v.x v.y) v.z := by
  simp only [GetMinValue]
  rcases le_total v.x v.y with h | h <;> rcases le_total v.x v.z with h1 | h1 <;>
    rcases le_total v.y v.z with h2 | h2 <;>
    split_ifs <;> simp_all <;> linarith

/-- The pass of `GetMaxValue` computes the maximum of the three components. -/
theorem GetMaxValue_eq_max (v : Vector3) : v.GetMaxValue = max (max v.x v.y) v.z := by
  simp only [GetMaxValue]
  rcases le_total v.x v.y with h | h <;> rcases le_total v.x v.z with h1 | h1 <;>
    rcases le_total v.y v.z with h2 | h2 <;>
    split_ifs <;> simp_all <;> linarith

end Vector3

namespace TriangleShape

end TriangleShape

/-! ## Support point -/

namespace TriangleShape

end TriangleShape

/-! ## Bounds, face normals, centroid -/

namespace TriangleShape

/-- C3: for every triangle and margin, `GetLocalBounds` returns on each axis
the minimum of the three vertex coordinates minus the margin and the maximum
of the three vertex coordinates plus the margin, whatever the out-parameters
held before; for margin zero the two results are the exact per-axis extrema. -/
theorem C3_local_bounds_are_extrema_with_margin (s : TriangleShape) (min0 max0 : Vector3) :
    ((s.GetLocalBounds min0 max0).1.x =
        min (min (s.mPoints 0).x (s.mPoints 1).x) (s.mPoints 2).x - s.mMargin ∧
      (s.GetLocalBounds min0 max0).1.y =
        min (min (s.mPoints 0).y (s.mPoints 1).y) (s.mPoints 2).y - s.mMargin ∧
      (s.GetLocalBounds min0 max0).1.z =
        min (min (s.mPoints 0).z (s.mPoints 1).z) (s.mPoints 2).z - s.mMargin ∧
      (s.GetLocalBounds min0 max0).2.x =
        max (max (s.mPoints 0).x (s.mPoints 1).x) (s.mPoints 2).x + s.mMargin ∧
      (s.GetLocalBounds min0 max0).2.y =
        max (max (s.mPoints 0).y (s.mPoints 1).y) (s.mPoints 2).y + s.mMargin ∧
      (s.GetLocalBounds min0 max0).2.z =
        max (max (s.mPoints 0).z (s.mPoints 1).z) (s.mPoints 2).z + s.mMargin) ∧
    (s.mMargin = 0 →
      (s.GetLocalBounds min0 max0).1 =
        ⟨min (min (s.mPoints 0).x (s.mPoints 1).x) (s.mPoints 2).x,
         min (min (s.mPoints 0).y (s.mPoints 1).y) (s.mPoints 2).y,
         min (min (s.mPoints 0).z (s.mPoints 1).z) (s.mPoints 2).z⟩ ∧
      (s.GetLocalBounds min0 max0).2 =
        ⟨max (max (s.mPoints 0).x (s.mPoints 1).x) (s.mPoints 2).x,
         max (max (s.mPoints 0).y (s.mPoints 1).y) (s.mPoints 2).y,
         max (max (s.mPoints 0).z (s.mPoints 1).z) (s.mPoints 2).z⟩) := by
  have hsub : ∀ a b : Vector3, a - b = ⟨a.x - b.x, a.y - b.y, a.z - b.z⟩ := fun _ _ => rfl
  have hadd : ∀ a b : Vector3, a + b = ⟨a.x + b.x, a.y + b.y, a.z + b.z⟩ := fun _ _ => rfl
  refine ⟨?_, fun hm => ?_⟩
  · simp only [GetLocalBounds, Vector3.SetAllValues, hsub, hadd, Vector3.GetMinValue_eq_min,
      Vector3.GetMaxValue_eq_max, and_self]
  · simp only [GetLocalBounds, Vector3.SetAllValues, hsub, hadd, Vector3.GetMinValue_eq_min,
      Vector3.GetMaxValue_eq_max, hm, sub_zero, add_zero, and_self]

/-- C4: `getFaceNormal(0)` returns the stored face normal and `getFaceNormal(1)`
returns its negation, so the second result is exactly the negation of the first
and their sum is the zero vector. -/
theorem C4_face_normal_one_is_negated_face_normal_zero (s : TriangleShape) :
    s.getFaceNormal 0 = some s.mNormal ∧
    s.getFaceNormal 1 = some (-s.mNormal) ∧
    (∃ a b : Vector3, s.getFaceNormal 0 = some a ∧ s.getFaceNormal 1 = some b ∧
      b = -a ∧ a + b = 0) := by
  refine ⟨rfl, rfl, s.mNormal, -s.mNormal, rfl, rfl, rfl, ?_⟩
  show (⟨s.mNormal.x + -s.mNormal.x, s.mNormal.y + -s.mNormal.y,
    s.mNormal.z + -s.mNormal.z⟩ : Vector3) = ⟨0, 0, 0⟩
  simp only [add_neg_cancel]

/-- C5: `getCentroid` is, component by component, the arithmetic mean of the
three stored vertices, and it is the same for every margin, face normal,
vertex normals, raycast mode, faces and edges stored with these vertices. -/
theorem C5_centroid_is_vertex_mean (s : TriangleShape) :
    s.getCentroid =
      ⟨((s.mPoints 0).x + (s.mPoints 1).x + (s.mPoints 2).x) / 3,
       ((s.mPoints 0).y + (s.mPoints 1).y + (s.mPoints 2).y) / 3,
       ((s.mPoints 0).z + (s.mPoints 1).z + (s.mPoints 2).z) / 3⟩ ∧
    (∀ (margin : scalar) (normal : Vector3) (verticesNormals : Fin 3 → Vector3)
      (mode : TriangleRaycastSide) (faces : Fin 2 → HalfEdgeStructure.Face)
      (edges : Fin 6 → HalfEdgeStructure.Edge),
      getCentroid ⟨margin, s.mPoints, normal, verticesNormals, mode, faces, edges⟩ =
        s.getCentroid) :=
  ⟨rfl, fun _ _ _ _ _ _ => rfl⟩

end TriangleShape

namespace TriangleShape

/-- Witness for C3: the unit right triangle has margin zero, and its local
bounds are the corners (0,0,0) and (1,1,0). -/
theorem C3_local_bounds_are_extrema_with_margin_witness :
    unitRightTriangle.mMargin = 0 ∧
    unitRightTriangle.GetLocalBounds ⟨5, 5, 5⟩ ⟨7, 7, 7⟩ = (⟨0, 0, 0⟩, ⟨1, 1, 0⟩) :=
  ⟨rfl, by
    obtain ⟨h1, h2⟩ :=
      (C3_local_bounds_are_extrema_with_margin unitRightTriangle ⟨5, 5, 5⟩ ⟨7, 7, 7⟩).2 rfl
    refine Prod.ext (h1.trans ?_) (h2.trans ?_) <;> simp [unitRightTriangle]⟩

/-! ## Indexed accessors -/

/-- C6: each indexed accessor passes its assertion exactly when the index is
below the count reported by the shape: `getFace` and `getFaceNormal` succeed
iff the index is below `getNbFaces` = 2, `getVertex` and `getVertexPosition`
iff it is below `getNbVertices` = 3, `getHalfEdge` iff it is below
`getNbHalfEdges` = 6; an out-of-range index gives the failed assertion and no
value. -/
theorem C6_accessors_succeed_iff_index_in_range (s : TriangleShape) (i uninit : Nat) :
    (s.getNbFaces = 2 ∧ s.getNbVertices = 3 ∧ s.getNbHalfEdges = 6) ∧
    (((s.getFace i).isSome = true ↔ i < s.getNbFaces) ∧
      ((s.getFaceNormal i).isSome = true ↔ i < s.getNbFaces) ∧
      ((s.getVertex i uninit).isSome = true ↔ i < s.getNbVertices) ∧
      ((s.getVertexPosition i).isSome = true ↔ i < s.getNbVertices) ∧
      ((s.getHalfEdge i).isSome = true ↔ i < s.getNbHalfEdges)) ∧
    ((s.getFace i = none ↔ s.getNbFaces ≤ i) ∧
      (s.getFaceNormal i = none ↔ s.getNbFaces ≤ i) ∧
      (s.getVertex i uninit = none ↔ s.getNbVertices ≤ i) ∧
      (s.getVertexPosition i = none ↔ s.getNbVertices ≤ i) ∧
      (s.getHalfEdge i = none ↔ s.getNbHalfEdges ≤ i)) := by
  refine ⟨⟨rfl, rfl, rfl⟩, ⟨?_, ?_, ?_, ?_, ?_⟩, ⟨?_, ?_, ?_, ?_, ?_⟩⟩ <;>
    simp only [getFace, getFaceNormal, getVertex, getVertexPosition, getHalfEdge, getNbFaces,
      getNbVertices, getNbHalfEdges] <;>
    split_ifs <;> simp <;> omega

/-- C7: for every vertex index `i` in 0, 1, 2, `getVertex` returns the record
whose identity index is `i` and whose outgoing-edge index is `2 * i`, for every
triangle and whatever the record held before the assignment. -/
theorem C7_vertex_outgoing_edge_is_twice_index (s : TriangleShape) (i uninit : Nat)
    (h : i < 3) : s.getVertex i uninit = some ⟨i, 2 * i⟩ := by
  interval_cases i <;> rfl

/-- Witness for C7 at vertex 2 of the unit right triangle. -/
theorem C7_vertex_outgoing_edge_is_twice_index_witness :
    (2 : Nat) < 3 ∧ unitRightTriangle.getVertex 2 99 = some ⟨2, 4⟩ :=
  ⟨by decide, C7_vertex_outgoing_edge_is_twice_index unitRightTriangle 2 99 (by decide)⟩

/-! ## Constant queries -/

/-- C8: `TestPointInside` returns false for every triangle and every local
point, in particular for the vertices and the centroid of the triangle, which
lie on it. -/
theorem C8_point_inside_is_always_false {P : Type} (s : TriangleShape) (p : Vector3)
    (proxyShape : P) :
    s.TestPointInside p proxyShape = false ∧
    (∀ i : Fin 3, s.TestPointInside (s.mPoints i) proxyShape = false) ∧
    s.TestPointInside s.getCentroid proxyShape = false :=
  ⟨rfl, fun _ => rfl, rfl⟩

/-- C9: `ComputeLocalInertiaTensor2` returns the 3x3 zero matrix for every
triangle, mass and transform matrix. -/
theorem C9_inertia_tensor_is_zero (s : TriangleShape) (mass : scalar) (transform : Matrix3) :
    s.ComputeLocalInertiaTensor2 mass transform = ⟨⟨0, 0, 0⟩, ⟨0, 0, 0⟩, ⟨0, 0, 0⟩⟩ :=
  rfl

/-! ## The raycast-mode flag -/

/-- C10: after `setRaycastTestType t`, `getRaycastTestType` returns `t`; the
margin, the three points, the face normal, the three vertex normals, the faces
and the edges are unchanged, and every geometric query (support point, bounds,
centroid, face, face normal, vertex, vertex position, half-edge, the counts)
returns the same result as before the call. -/
theorem C10_set_raycast_type_changes_only_the_flag (s : TriangleShape)
    (t : TriangleRaycastSide) :
    (s.setRaycastTestType t).getRaycastTestType = t ∧
    ((s.setRaycastTestType t).mMargin = s.mMargin ∧
      (s.setRaycastTestType t).mPoints = s.mPoints ∧
      (s.setRaycastTestType t).mNormal = s.mNormal ∧
      (s.setRaycastTestType t).mVerticesNormals = s.mVerticesNormals ∧
      (s.setRaycastTestType t).mFaces = s.mFaces ∧
      (s.setRaycastTestType t).mEdges = s.mEdges) ∧
    ((∀ d : Vector3, (s.setRaycastTestType t).GetLocalSupportPointWithMargin d =
        s.GetLocalSupportPointWithMargin d) ∧
      (∀ min0 max0 : Vector3, (s.setRaycastTestType t).GetLocalBounds min0 max0 =
        s.GetLocalBounds min0 max0) ∧
      (s.setRaycastTestType t).getCentroid = s.getCentroid ∧
      (∀ i : Nat, (s.setRaycastTestType t).getFace i = s.getFace i) ∧
      (∀ i : Nat, (s.setRaycastTestType t).getFaceNormal i = s.getFaceNormal i) ∧
      (∀ i uninit : Nat, (s.setRaycastTestType t).getVertex i uninit = s.getVertex i uninit) ∧
      (∀ i : Nat, (s.setRaycastTestType t).getVertexPosition i = s.getVertexPosition i) ∧
      (∀ i : Nat, (s.setRaycastTestType t).getHalfEdge i = s.getHalfEdge i) ∧
      (s.setRaycastTestType t).getNbFaces = s.getNbFaces ∧
      (s.setRaycastTestType t).getNbVertices = s.getNbVertices ∧
      (s.setRaycastTestType t).getNbHalfEdges = s.getNbHalfEdges) :=
  ⟨rfl, ⟨rfl, rfl, rfl, rfl, rfl, rfl⟩,
    ⟨fun _ => rfl, fun _ _ => rfl, rfl, fun _ => rfl, fun _ => rfl, fun _ _ => rfl,
      fun _ => rfl, fun _ => rfl, rfl, rfl, rfl⟩⟩

end TriangleShape

/-! ## Half-edge topology of a constructed triangle -/

namespace TriangleShape

/-- C11: for every constructed triangle shape and every half-edge index
`e < 6`, the twin of the twin of `getHalfEdge(e)` is `e` itself, and following
the next index from `e` visits edges of the same face and is back at `e` after
three steps (a closed cycle). -/
theorem C11_constructed_twin_involution_and_next_cycle (margin : scalar)
    (vertices verticesNormals : Fin 3 → Vector3) (shapeId e : Nat) (h : e < 6) :
    (∃ ed tw : HalfEdgeStructure.Edge,
      (construct margin vertices verticesNormals shapeId).getHalfEdge e = some ed ∧
      (construct margin vertices verticesNormals shapeId).getHalfEdge ed.twinEdgeIndex =
        some tw ∧
      tw.twinEdgeIndex = e) ∧
    (∃ ed e1 e2 : HalfEdgeStructure.Edge,
      (construct margin vertices verticesNormals shapeId).getHalfEdge e = some ed ∧
      (construct margin vertices verticesNormals shapeId).getHalfEdge ed.nextEdgeIndex =
        some e1 ∧
      (construct margin vertices verticesNormals shapeId).getHalfEdge e1.nextEdgeIndex =
        some e2 ∧
      e1.faceIndex = ed.faceIndex ∧ e2.faceIndex = ed.faceIndex ∧
      ed.nextEdgeIndex ≠ e ∧ e1.nextEdgeIndex ≠ e ∧ e2.nextEdgeIndex = e) := by
  interval_cases e <;>
    refine ⟨⟨_, _, rfl, rfl, rfl⟩, ⟨_, _, _, rfl, rfl, rfl, rfl, rfl, ?_, ?_, rfl⟩⟩ <;>
    simp [construct]

/-- Witness for C11 at half-edge 3 of a constructed unit right triangle: its
twin is edge 2, whose twin is edge 3, and its face cycle is 3, 1, 5. -/
theorem C11_constructed_twin_involution_and_next_cycle_witness :
    (3 : Nat) < 6 ∧
    (∃ ed tw : HalfEdgeStructure.Edge,
      flatNormalsTriangle.getHalfEdge 3 = some ed ∧
      flatNormalsTriangle.getHalfEdge ed.twinEdgeIndex = some tw ∧
      tw.twinEdgeIndex = 3) :=
  ⟨by decide,
    (C11_constructed_twin_involution_and_next_cycle 0 unitRightVertices
      (fun _ => ⟨0, 0, 1⟩) 7 3 (by decide)).1⟩

end TriangleShape

/-! ## Raycast side selection -/

namespace TriangleShape

/-- C12: for every triangle whose raycast mode is FRONT and every ray whose
direction has a non-negative dot product with the face normal (a ray that
approaches from behind), `Raycast` reports no hit, whatever the position of
the ray relative to the plane and the triangle. -/
theorem C12_front_mode_rejects_rays_from_behind (s : TriangleShape) (tolerance : scalar)
    (ray : IRay) (proxyShape : IProxyShape)
    (hmode : s.getRaycastTestType = TriangleRaycastSide.FRONT)
    (hback : 0 ≤ ray.direction.Dot s.mNormal) :
    s.Raycast tolerance ray proxyShape = none := by
  have hm : s.mRaycastTestType = TriangleRaycastSide.FRONT := hmode
  unfold Raycast
  simp only [hm, hback, and_self, if_true]
  split_ifs <;> rfl

end TriangleShape

namespace TriangleShape

/-- The Raycast model reproduces the scenario of the spec: on the unit right
triangle with mode FRONT_AND_BACK, the ray from (0.2,0.2,1) towards (0,0,-1)
hits at (0.2,0.2,0) with normal (0,0,1). -/
theorem Raycast_scenario_front_and_back_hit :
    flatNormalsTriangle.Raycast 0 ⟨⟨1 / 5, 1 / 5, 1⟩, ⟨0, 0, -1⟩, 10⟩ identityProxyShape =
      some ⟨1, ⟨1 / 5, 1 / 5, 0⟩, ⟨0, 0, 1⟩⟩ := by
  norm_num [Raycast, flatNormalsTriangle, construct, unitRightVertices, Vector3.Dot,
    Vector3.Cross, Vector3.sub_def, Vector3.add_def, Vector3.smul_def, Vector3.neg_def,
    computeBarycentricCoordinatesInTriangle, identityProxyShape]
  intro h
  cases h

/-- The Raycast model reproduces the scenario of the spec: a ray from (2,2,1)
towards (0,0,-1), outside the footprint of the unit right triangle, reports no
hit. -/
theorem Raycast_scenario_outside_footprint :
    flatNormalsTriangle.Raycast 0 ⟨⟨2, 2, 1⟩, ⟨0, 0, -1⟩, 10⟩ identityProxyShape = none := by
  norm_num [Raycast, flatNormalsTriangle, construct, unitRightVertices, Vector3.Dot,
    Vector3.Cross, Vector3.sub_def, Vector3.add_def, Vector3.smul_def, Vector3.neg_def,
    computeBarycentricCoordinatesInTriangle, identityProxyShape]

/-- With mode FRONT_AND_BACK the ray from (0.2,0.2,-1) towards (0,0,1), which
comes from behind the unit right triangle, hits it at (0.2,0.2,0). -/
theorem Raycast_from_behind_hits_in_two_sided_mode :
    flatNormalsTriangle.Raycast 0 ⟨⟨1 / 5, 1 / 5, -1⟩, ⟨0, 0, 1⟩, 10⟩ identityProxyShape =
      some ⟨1, ⟨1 / 5, 1 / 5, 0⟩, ⟨0, 0, -1⟩⟩ := by
  norm_num [Raycast, flatNormalsTriangle, construct, unitRightVertices, Vector3.Dot,
    Vector3.Cross, Vector3.sub_def, Vector3.add_def, Vector3.smul_def, Vector3.neg_def,
    computeBarycentricCoordinatesInTriangle, identityProxyShape]
  intro h
  cases h

/-- Witness for C12: the unit right triangle in mode FRONT and the ray from
(0.2,0.2,-1) towards (0,0,1), which crosses the triangle from behind. -/
theorem C12_front_mode_rejects_rays_from_behind_witness :
    (flatNormalsTriangle.setRaycastTestType TriangleRaycastSide.FRONT).getRaycastTestType =
      TriangleRaycastSide.FRONT ∧
    0 ≤ (IRay.mk ⟨1 / 5, 1 / 5, -1⟩ ⟨0, 0, 1⟩ 10).direction.Dot
      (flatNormalsTriangle.setRaycastTestType TriangleRaycastSide.FRONT).mNormal ∧
    (flatNormalsTriangle.setRaycastTestType TriangleRaycastSide.FRONT).Raycast 0
      ⟨⟨1 / 5, 1 / 5, -1⟩, ⟨0, 0, 1⟩, 10⟩ identityProxyShape = none :=
  have hback : 0 ≤ (IRay.mk ⟨1 / 5, 1 / 5, -1⟩ ⟨0, 0, 1⟩ 10).direction.Dot
      (flatNormalsTriangle.setRaycastTestType TriangleRaycastSide.FRONT).mNormal := by
    norm_num [flatNormalsTriangle, construct, setRaycastTestType, unitRightVertices,
      Vector3.Dot, Vector3.Cross, Vector3.sub_def]
  ⟨rfl, hback, C12_front_mode_rejects_rays_from_behind _ 0 _ identityProxyShape rfl hback⟩

end TriangleShape

namespace TriangleShape

/-- For an index below 3, `getVertex` returns the record with that identity
index and twice that index as outgoing edge. -/
theorem getVertex_of_lt (s : TriangleShape) (i uninit : Nat) (h : i < 3) :
    s.getVertex i uninit = some ⟨i, 2 * i⟩ := by
  interval_cases i <;> rfl

end TriangleShape

/-! ## Outgoing edges of the vertices -/

namespace TriangleShape

/-- C16: for every vertex index `i < getNbVertices()`, the outgoing-edge index
stored in `getVertex(i)` is below `getNbHalfEdges()`, so `getHalfEdge` applied
to it passes its assertion, and two distinct vertex indices get distinct
outgoing-edge indices. -/
theorem C16_vertex_edge_index_is_valid_and_injective (s : TriangleShape) (i uninit : Nat)
    (h : i < s.getNbVertices) :
    (∃ v : HalfEdgeStructure.Vertex, s.getVertex i uninit = some v ∧
      v.edgeIndex < s.getNbHalfEdges ∧ (s.getHalfEdge v.edgeIndex).isSome = true) ∧
    (∀ (j uninit2 : Nat) (v w : HalfEdgeStructure.Vertex), j < s.getNbVertices →
      s.getVertex i uninit = some v → s.getVertex j uninit2 = some w → i ≠ j →
      v.edgeIndex ≠ w.edgeIndex) := by
  have h3 : i < 3 := h
  constructor
  · interval_cases i
    · exact ⟨⟨0, 0⟩, rfl, (by decide : (0 : Nat) < 6), rfl⟩
    · exact ⟨⟨1, 2⟩, rfl, (by decide : (2 : Nat) < 6), rfl⟩
    · exact ⟨⟨2, 4⟩, rfl, (by decide : (4 : Nat) < 6), rfl⟩
  · intro j uninit2 v w hj hv hw hij
    have hj3 : j < 3 := hj
    rw [getVertex_of_lt s i uninit h3] at hv
    rw [getVertex_of_lt s j uninit2 hj3] at hw
    cases hv
    cases hw
    show 2 * i ≠ 2 * j
    omega

/-- Witness for C16 at vertex 1 of the unit right triangle. -/
theorem C16_vertex_edge_index_is_valid_and_injective_witness :
    (1 : Nat) < unitRightTriangle.getNbVertices ∧
    (∃ v : HalfEdgeStructure.Vertex, unitRightTriangle.getVertex 1 99 = some v ∧
      v.edgeIndex < unitRightTriangle.getNbHalfEdges ∧
      (unitRightTriangle.getHalfEdge v.edgeIndex).isSome = true) :=
  ⟨by decide,
    (C16_vertex_edge_index_is_valid_and_injective unitRightTriangle 1 99 (by decide)).1⟩

end TriangleShape

end IEngine
